import Mathlib

/-
Verification development for the wecom-push client SDK (src/wecom.go).

The Go code is shallowly embedded as follows: the sender's mutable state
(struct wecom, lines 23-30) becomes an explicit record `WecomState`; network
exchanges performed by the external HTTP transport and the provider become an
`Oracle` supplying the outcome of the k-th token-endpoint exchange and the
k-th message/upload exchange; JSON bodies are modelled by the inductive
`Json`; the unbounded recursion of `send` (line 77-142) is made total with a
fuel parameter, `GoError.fuelOut` marking executions that would recurse past
the given fuel. Every provider contact is recorded in an event trace so that
the temporal claims (lazy fetch, refresh alternation, call counts) can be
stated about observable behaviour.
-/

namespace Wecom

/-- JSON values, as produced and consumed by encoding/json in the Go source. -/
inductive Json where
  | null
  | str (s : String)
  | num (n : Int)
  | bool (b : Bool)
  | arr (elems : List Json)
  | obj (fields : List (String × Json))

/-- Lookup of a key in a JSON object's field list; encoding/json lets a later
duplicate key overwrite an earlier one, so the last occurrence wins. -/
def jlookup : List (String × Json) → String → Option Json
  | [], _ => none
  | (k, v) :: rest, key =>
      match jlookup rest key with
      | some v2 => some v2
      | none => if k = key then some v else none

/-- Decoding of a JSON object field into a Go `int` struct field: a missing
field or JSON null leaves the zero value; a number is taken as-is; any other
shape is an unmarshal error. -/
def decodeIntField : Option Json → Except String Int
  | none => Except.ok 0
  | some Json.null => Except.ok 0
  | some (Json.num n) => Except.ok n
  | some _ => Except.error "json: cannot unmarshal value into field of type int"

/-- Decoding of a JSON object field into a Go `string` struct field. -/
def decodeStrField : Option Json → Except String String
  | none => Except.ok ""
  | some Json.null => Except.ok ""
  | some (Json.str s) => Except.ok s
  | some _ => Except.error "json: cannot unmarshal value into field of type string"

/-- Model of `json.Unmarshal(resp, &r)` with `r` the anonymous struct of
`send` (src/wecom.go lines 97-103) holding `errcode` and `errmsg`. -/
def unmarshalErrResp : Json → Except String (Int × String)
  | Json.null => Except.ok (0, "")
  | Json.obj fs =>
      match decodeIntField (jlookup fs "errcode") with
      | Except.error e => Except.error e
      | Except.ok c =>
          match decodeStrField (jlookup fs "errmsg") with
          | Except.error e => Except.error e
          | Except.ok m => Except.ok (c, m)
  | _ => Except.error "json: cannot unmarshal value into struct"

/-- Model of `json.Unmarshal(b, &m)` with `m : map[string]any`
(src/wecom.go lines 239-242): an object yields its fields, null leaves the
map empty, anything else is an unmarshal error. -/
def unmarshalMapAny : Json → Except String (List (String × Json))
  | Json.null => Except.ok []
  | Json.obj fs => Except.ok fs
  | _ => Except.error "json: cannot unmarshal value into map"

/-- Parsed token-endpoint response body (struct accessResp, lines 16-21). -/
structure AccessResp where
  errcode : Int
  errmsg : String
  access_token : String
  expires_in : Int

/-- Outcome of one HTTP exchange with the token endpoint, as observed by
`getAccessToken` (lines 50-68): each constructor marks the point of the Go
function at which the exchange fails, or carries the decoded body. -/
inductive TokenExchange where
  | reqErr (e : String)
  | doErr (e : String)
  | readErr (e : String)
  | decodeErr (e : String)
  | ok (a : AccessResp)

/-- Mutable state of the sender (struct wecom, lines 23-30); the two mutexes
are not data and are treated in the lock-event model further below. -/
structure WecomState where
  corpid : String
  corpsecret : String
  accessToken : String
  isFirstAccessTokenErr : Bool

/-- Constructor `New` (lines 32-40): empty token, first-error flag true. -/
def New (corpid corpsecret : String) : WecomState :=
  { corpid := corpid, corpsecret := corpsecret, accessToken := "",
    isFirstAccessTokenErr := true }

/-- Errors surfaced by the Go code: transport and read failures, JSON decode
failures, `errors.New` on a provider message, plus the fuel marker for
executions exceeding the modelled recursion budget. -/
inductive GoError where
  | transport (e : String)
  | decode (e : String)
  | errMsg (m : String)
  | fuelOut

/-- Model of `getAccessToken` (src/wecom.go lines 42-75): the stored token is
overwritten only when the exchange decodes with errcode 0; every failure path
returns before the assignment on line 73, leaving the state unchanged. -/
def getAccessToken (w : WecomState) (x : TokenExchange) :
    Except GoError Unit × WecomState :=
  match x with
  | TokenExchange.reqErr e => (Except.error (GoError.transport e), w)
  | TokenExchange.doErr e => (Except.error (GoError.transport e), w)
  | TokenExchange.readErr e => (Except.error (GoError.transport e), w)
  | TokenExchange.decodeErr e => (Except.error (GoError.decode e), w)
  | TokenExchange.ok a =>
      if a.errcode ≠ 0 then (Except.error (GoError.errMsg a.errmsg), w)
      else (Except.ok (), { w with accessToken := a.access_token })

/-- Request body shapes built by the closures in Text, getMediaID and File. -/
inductive ReqBody where
  | jsonBody (body : Json)
  | multipartBody (fieldName : String) (filename : String) (content : List Nat)

/-- An outbound HTTP request as built by a `getResp` closure just before the
transport call; the URL embeds the access token read at call time. -/
structure Request where
  method : String
  url : String
  body : ReqBody

/-- Outcome of one invocation of a `getResp` closure: either some error from
request construction, transport, or body read (lines 163-181 etc.), or the
raw response bytes in parsed form. -/
inductive AttemptOutcome where
  | getRespErr (e : String)
  | resp (body : Json)

/-- The environment: the result of the k-th token-endpoint exchange and of
the k-th `getResp` invocation over the whole execution. -/
structure Oracle where
  token : Nat → TokenExchange
  attempt : Nat → AttemptOutcome

/-- Provider contacts observed at the transport boundary: a token-endpoint
call, or a dispatched request paired with its outcome. -/
inductive Event where
  | tokenFetch
  | dispatch (req : Request) (outcome : AttemptOutcome)

/-- Result bundle of one `send` run: Go return value, final state, the trace
of provider contacts, and the next unread oracle indices. -/
structure SendResult where
  res : Except GoError Json
  state : WecomState
  trace : List Event
  tkIdx : Nat
  akIdx : Nat

/-- Lines 93-141 of `send` (src/wecom.go): dispatch the built request through
the transport, decode the response's errcode/errmsg, and run the decision
table — errcode 0 returns the bytes as-is (106-107); 42001/40014/41001 enter
the alternating recovery (108-135), refreshing the token and re-dispatching
when the first-occurrence flag is set, merely flipping the flag back and
re-dispatching without a refresh otherwise; any other non-zero code becomes
`errors.New(errmsg)` (137-138). The recursive re-dispatch of lines 124 and
131 is abstracted as the continuation `recur`. -/
def sendCore (build : String → Request) (o : Oracle)
    (recur : WecomState → Nat → Nat → SendResult)
    (w : WecomState) (tk ak : Nat) : SendResult :=
  let outcome := o.attempt ak
  let ev : Event := Event.dispatch (build w.accessToken) outcome
  match outcome with
  | AttemptOutcome.getRespErr e =>
      ⟨Except.error (GoError.transport e), w, [ev], tk, ak+1⟩
  | AttemptOutcome.resp body =>
    match unmarshalErrResp body with
    | Except.error e => ⟨Except.error (GoError.decode e), w, [ev], tk, ak+1⟩
    | Except.ok (errCode, errMsg) =>
      if errCode = 0 then ⟨Except.ok body, w, [ev], tk, ak+1⟩
      else if errCode = 42001 ∨ errCode = 40014 ∨ errCode = 41001 then
        if w.isFirstAccessTokenErr then
          let w2 := { w with isFirstAccessTokenErr := false }
          match getAccessToken w2 (o.token tk) with
          | (Except.error e, w3) =>
              ⟨Except.error e, w3, [ev, Event.tokenFetch], tk+1, ak+1⟩
          | (Except.ok _, w3) =>
              let s := recur w3 (tk+1) (ak+1)
              ⟨s.res, s.state, ev :: Event.tokenFetch :: s.trace, s.tkIdx, s.akIdx⟩
        else
          let w2 := { w with isFirstAccessTokenErr := true }
          let s := recur w2 tk (ak+1)
          ⟨s.res, s.state, ev :: s.trace, s.tkIdx, s.akIdx⟩
      else ⟨Except.error (GoError.errMsg errMsg), w, [ev], tk, ak+1⟩

/-- Model of `send` (src/wecom.go lines 77-142). The init block (78-91)
fetches a token only when none is stored, then lines 93-141 run as
`sendCore`, with the recursion of lines 124/131 re-entering `send` at one
fuel less; exhausted fuel marks an execution recursing past the budget. -/
def send (build : String → Request) (o : Oracle) :
    Nat → WecomState → Nat → Nat → SendResult
  | 0, w, tk, ak => ⟨Except.error GoError.fuelOut, w, [], tk, ak⟩
  | fuel+1, w, tk, ak =>
    if w.accessToken = "" then
      match getAccessToken w (o.token tk) with
      | (Except.error e, w1) => ⟨Except.error e, w1, [Event.tokenFetch], tk+1, ak⟩
      | (Except.ok _, w1) =>
          let s := sendCore build o
            (fun w2 tk2 ak2 => send build o fuel w2 tk2 ak2) w1 (tk+1) ak
          ⟨s.res, s.state, Event.tokenFetch :: s.trace, s.tkIdx, s.akIdx⟩
    else
      sendCore build o (fun w2 tk2 ak2 => send build o fuel w2 tk2 ak2) w tk ak

/-- Parameters of the Text operation (struct TextInfo, lines 144-148). -/
structure TextInfo where
  touser : String
  agentID : Int
  content : String

/-- Field list of the text-message body built on lines 153-161, in source
order; note line 160 sets "safe" to the JSON string "0". -/
def textFields (t : TextInfo) : List (String × Json) :=
  [("touser", Json.str t.touser),
   ("msgtype", Json.str "text"),
   ("agentid", Json.num t.agentID),
   ("text", Json.obj [("content", Json.str t.content)]),
   ("safe", Json.str "0")]

/-- The JSON body passed to json.Marshal by the Text closure. -/
def textBody (t : TextInfo) : Json := Json.obj (textFields t)

/-- URL of the message-send endpoint (lines 152 and 266). -/
def sendMsgURL (tok : String) : String :=
  "https://qyapi.weixin.qq.com/cgi-bin/message/send?access_token=" ++ tok

/-- The request a message-send closure builds when invoked with the current
access token (lines 152-171 and 266-287). -/
def sendRequest (body : Json) (tok : String) : Request :=
  { method := "POST", url := sendMsgURL tok, body := ReqBody.jsonBody body }

/-- Model of `Text` (lines 150-188): one dispatch of the text body through
`send`; the response bytes are discarded. -/
def Text (o : Oracle) (fuel : Nat) (w : WecomState) (t : TextInfo) :
    Except GoError Unit × WecomState × List Event :=
  let s := send (sendRequest (textBody t)) o fuel w 0 0
  match s.res with
  | Except.error e => (Except.error e, s.state, s.trace)
  | Except.ok _ => (Except.ok (), s.state, s.trace)

/-- Media classifications (type Filetype and its constants, lines 190-197). -/
inductive Filetype where
  | image
  | voice
  | video
  | file

/-- String value of each Filetype constant. -/
def Filetype.toString : Filetype → String
  | Filetype.image => "image"
  | Filetype.voice => "voice"
  | Filetype.video => "video"
  | Filetype.file => "file"

/-- URL of the media-upload endpoint (line 201). -/
def mediaUploadURL (tok : String) (filetype : Filetype) : String :=
  "https://qyapi.weixin.qq.com/cgi-bin/media/upload?access_token=" ++ tok
    ++ "&type=" ++ filetype.toString

/-- The multipart request the upload closure builds when invoked with the
current access token (lines 200-218): one form file field named "media". -/
def uploadRequest (content : List Nat) (filetype : Filetype) (filename : String)
    (tok : String) : Request :=
  { method := "POST", url := mediaUploadURL tok filetype,
    body := ReqBody.multipartBody "media" filename content }

/-- Result of a Go function call that may also panic, as the unchecked type
assertion on line 243 can. -/
inductive GoResult (α : Type) where
  | ok (a : α)
  | err (e : GoError)
  | panic (msg : String)

/-- Model of `getMediaID` (src/wecom.go lines 199-244): dispatch the
multipart upload through `send`, unmarshal the returned bytes into a
map[string]any, then run the unchecked assertion `m["media_id"].(string)` of
line 243 — which panics whenever the field is absent or not a string. -/
def getMediaID (o : Oracle) (fuel : Nat) (w : WecomState) (content : List Nat)
    (filetype : Filetype) (filename : String) (tk ak : Nat) :
    GoResult String × WecomState × List Event × Nat × Nat :=
  let s := send (uploadRequest content filetype filename) o fuel w tk ak
  match s.res with
  | Except.error e => (GoResult.err e, s.state, s.trace, s.tkIdx, s.akIdx)
  | Except.ok b =>
    match unmarshalMapAny b with
    | Except.error e => (GoResult.err (GoError.decode e), s.state, s.trace, s.tkIdx, s.akIdx)
    | Except.ok fs =>
      match jlookup fs "media_id" with
      | some (Json.str mid) => (GoResult.ok mid, s.state, s.trace, s.tkIdx, s.akIdx)
      | _ => (GoResult.panic "interface conversion", s.state, s.trace, s.tkIdx, s.akIdx)

/-- Parameters of the File operation (struct FileInfo, lines 246-257). -/
structure FileInfo where
  touser : String
  agentID : Int
  content : List Nat
  filetype : Filetype
  filename : String
  title : String
  description : String

/-- Field list of the file-message body built on lines 267-277, in source
order: the key named after the media classification maps to the object
holding the uploaded media id with title and description, and "safe" is the
JSON number 0 here. -/
def fileFields (f : FileInfo) (mediaID : String) : List (String × Json) :=
  [("touser", Json.str f.touser),
   ("msgtype", Json.str f.filetype.toString),
   ("agentid", Json.num f.agentID),
   (f.filetype.toString,
      Json.obj [("media_id", Json.str mediaID),
                ("title", Json.str f.title),
                ("description", Json.str f.description)]),
   ("safe", Json.num 0)]

/-- The JSON body passed to json.Marshal by the File closure. -/
def fileBody (f : FileInfo) (mediaID : String) : Json :=
  Json.obj (fileFields f mediaID)

/-- Model of `File` (src/wecom.go lines 259-306): obtain a media id via
`getMediaID`, then dispatch the file-message body through `send`; a panic
inside getMediaID propagates. Oracle indices are threaded so that the two
phases consume consecutive network exchanges. -/
def File (o : Oracle) (fuel : Nat) (w : WecomState) (f : FileInfo) :
    GoResult Unit × WecomState × List Event :=
  match getMediaID o fuel w f.content f.filetype f.filename 0 0 with
  | (GoResult.err e, w1, ev, _, _) => (GoResult.err e, w1, ev)
  | (GoResult.panic m, w1, ev, _, _) => (GoResult.panic m, w1, ev)
  | (GoResult.ok mid, w1, ev, tk1, ak1) =>
    let s := send (sendRequest (fileBody f mid)) o fuel w1 tk1 ak1
    match s.res with
    | Except.error e => (GoResult.err e, s.state, ev ++ s.trace)
    | Except.ok _ => (GoResult.ok (), s.state, ev ++ s.trace)

/-- Boolean form of the credential-error code test of line 108. -/
def credErrCode (c : Int) : Bool :=
  decide (c = 42001 ∨ c = 40014 ∨ c = 41001)

/-- An attempt outcome whose decoded errcode is one of the three
credential-error codes. -/
def credErrOutcome : AttemptOutcome → Bool
  | AttemptOutcome.resp body =>
      match unmarshalErrResp body with
      | Except.ok (c, _) => credErrCode c
      | Except.error _ => false
  | AttemptOutcome.getRespErr _ => false

/-- A trace event that is a dispatch answered with a credential-error code. -/
def isCredErrEvent : Event → Bool
  | Event.dispatch _ outcome => credErrOutcome outcome
  | Event.tokenFetch => false

/-- Holds of a trace in which no token-endpoint contact occurs before the
first credential-error response (once such a response is observed, later
fetches are the sanctioned refreshes). -/
def noFetchBeforeCredErr : List Event → Bool
  | [] => true
  | Event.tokenFetch :: _ => false
  | e :: rest => if isCredErrEvent e then true else noFetchBeforeCredErr rest

/-- Lazy-fetch discipline of a trace: when the stored token was empty at
entry the trace is empty or opens with exactly one token fetch, and from
then on — as always when a token was already present — the token endpoint is
contacted only after a credential-error response. -/
def lazyFetchOk (startTokenEmpty : Bool) (tr : List Event) : Bool :=
  if startTokenEmpty then
    match tr with
    | [] => true
    | Event.tokenFetch :: rest => noFetchBeforeCredErr rest
    | _ => false
  else noFetchBeforeCredErr tr

/-- Token fetched by a successful token exchange. -/
def fetchedToken : TokenExchange → String
  | TokenExchange.ok a => a.access_token
  | _ => ""

/-- A token exchange that succeeds with errcode 0 and a non-empty token. -/
def tokenOk : TokenExchange → Bool
  | TokenExchange.ok a => decide (a.errcode = 0 ∧ a.access_token ≠ "")
  | _ => false

/-- The alternating trace the recovery protocol produces when every response
is a credential error: each attempt with the first-occurrence flag set is a
dispatch followed by one token fetch, each attempt with it clear is a bare
dispatch, the flag flipping every attempt. -/
def altPattern (build : String → Request) (o : Oracle) :
    Nat → Bool → String → Nat → Nat → List Event
  | 0, _, _, _, _ => []
  | fuel+1, true, tok, tk, ak =>
      Event.dispatch (build tok) (o.attempt ak) :: Event.tokenFetch ::
        altPattern build o fuel false (fetchedToken (o.token tk)) (tk+1) (ak+1)
  | fuel+1, false, tok, tk, ak =>
      Event.dispatch (build tok) (o.attempt ak) ::
        altPattern build o fuel true tok tk (ak+1)

/-- Lock-sensitive events of the response-handling region of `send`
(src/wecom.go lines 105-141), used to check which flag accesses the push
lock actually covers. -/
inductive LockEvent where
  | lock
  | unlock
  | readFlag (v : Bool)
  | writeFlag (v : Bool)
  | refreshCall
  | redispatch
  | ret
deriving DecidableEq

/-- Event sequence of lines 105-141 as the single thread executes them,
given the current flag value and the decoded errcode: pushLock.Lock (105);
on errcode 0 just pushLock.Unlock (107); on a credential-error code the flag
is read (109), then in the first branch written false (118), the token
refreshed (119), the lock released (120) and the request re-dispatched
(124), while in the other branch the lock is released (129) before the flag
is written true (130) and the request re-dispatched (131); any other code
unlocks and returns (137-138). -/
def pushSection (flag : Bool) (errCode : Int) : List LockEvent :=
  LockEvent.lock ::
    (if errCode = 0 then [LockEvent.unlock]
     else if errCode = 42001 ∨ errCode = 40014 ∨ errCode = 41001 then
       LockEvent.readFlag flag ::
         (if flag then
            [LockEvent.writeFlag false, LockEvent.refreshCall,
             LockEvent.unlock, LockEvent.redispatch]
          else
            [LockEvent.unlock, LockEvent.writeFlag true, LockEvent.redispatch])
     else [LockEvent.unlock, LockEvent.ret])

/-- Checks that every read of the first-occurrence flag in the event list
happens while the push lock is held, the first argument tracking whether the
lock is held on entry. -/
def readsUnderLock : Bool → List LockEvent → Bool
  | _, [] => true
  | _, LockEvent.lock :: rest => readsUnderLock true rest
  | _, LockEvent.unlock :: rest => readsUnderLock false rest
  | held, LockEvent.readFlag _ :: rest => held && readsUnderLock held rest
  | held, _ :: rest => readsUnderLock held rest

/-- Checks that every read and every write of the first-occurrence flag
happens while the push lock is held. -/
def flagAccessesUnderLock : Bool → List LockEvent → Bool
  | _, [] => true
  | _, LockEvent.lock :: rest => flagAccessesUnderLock true rest
  | _, LockEvent.unlock :: rest => flagAccessesUnderLock false rest
  | held, LockEvent.readFlag _ :: rest => held && flagAccessesUnderLock held rest
  | held, LockEvent.writeFlag _ :: rest => held && flagAccessesUnderLock held rest
  | held, _ :: rest => flagAccessesUnderLock held rest

/-- Checks that every recursive re-dispatch happens after the push lock has
been released. -/
def redispatchAfterUnlock : Bool → List LockEvent → Bool
  | _, [] => true
  | _, LockEvent.lock :: rest => redispatchAfterUnlock true rest
  | _, LockEvent.unlock :: rest => redispatchAfterUnlock false rest
  | held, LockEvent.redispatch :: rest => !held && redispatchAfterUnlock held rest
  | held, _ :: rest => redispatchAfterUnlock held rest

/-- A sender state holding a non-empty token, for concrete evaluations. -/
def wReady : WecomState :=
  { corpid := "id", corpsecret := "sec", accessToken := "tok",
    isFirstAccessTokenErr := true }

/-- A concrete text message. -/
def demoText : TextInfo := { touser := "u", agentID := 1, content := "hi" }

/-- The request builder of the Text closure for `demoText`. -/
def demoBuild : String → Request := sendRequest (textBody demoText)

/-- A response body carrying credential-error code 42001. -/
def credBody42001 : Json :=
  Json.obj [("errcode", Json.num 42001), ("errmsg", Json.str "expired")]

/-- A response body carrying errcode 0. -/
def okBody : Json :=
  Json.obj [("errcode", Json.num 0), ("errmsg", Json.str "ok")]

/-- A successful token-endpoint body yielding the token "fresh". -/
def freshResp : AccessResp :=
  { errcode := 0, errmsg := "", access_token := "fresh", expires_in := 7200 }

/-- Environment in which the upload response is accepted (errcode 0) but has
no media_id field at all. -/
def oNoMedia : Oracle :=
  { token := fun _ => TokenExchange.ok freshResp,
    attempt := fun _ => AttemptOutcome.resp (Json.obj [("errcode", Json.num 0)]) }

/-- Environment in which the upload response is accepted but its media_id
field is a number, not a string. -/
def oBadMedia : Oracle :=
  { token := fun _ => TokenExchange.ok freshResp,
    attempt := fun _ => AttemptOutcome.resp
      (Json.obj [("errcode", Json.num 0), ("media_id", Json.num 5)]) }

/-- Environment answering every dispatch with provider error 40001/"boom". -/
def oProv1 : Oracle :=
  { token := fun _ => TokenExchange.ok freshResp,
    attempt := fun _ => AttemptOutcome.resp
      (Json.obj [("errcode", Json.num 40001), ("errmsg", Json.str "boom")]) }

/-- Environment answering every dispatch with provider error 40002/"boom" —
same message as `oProv1`, different code. -/
def oProv2 : Oracle :=
  { token := fun _ => TokenExchange.ok freshResp,
    attempt := fun _ => AttemptOutcome.resp
      (Json.obj [("errcode", Json.num 40002), ("errmsg", Json.str "boom")]) }

/-- Environment whose first response is a credential error and whose later
responses succeed; token exchanges always yield "fresh". -/
def oRefresh : Oracle :=
  { token := fun _ => TokenExchange.ok freshResp,
    attempt := fun k => match k with
      | 0 => AttemptOutcome.resp credBody42001
      | _ + 1 => AttemptOutcome.resp okBody }

/-- Environment answering every dispatch with a credential error and every
token exchange with a fresh token. -/
def oCredLoop : Oracle :=
  { token := fun _ => TokenExchange.ok freshResp,
    attempt := fun _ => AttemptOutcome.resp credBody42001 }

/-- Environment answering every dispatch with errcode 0. -/
def oAllOk : Oracle :=
  { token := fun _ => TokenExchange.ok freshResp,
    attempt := fun _ => AttemptOutcome.resp okBody }

/-- A concrete file message of the video classification. -/
def demoFile : FileInfo :=
  { touser := "u", agentID := 1, content := [1, 2, 3],
    filetype := Filetype.video, filename := "v.mp4",
    title := "T", description := "D" }

/-- Happy-path file-send environment: the first exchange is an accepted
upload answering with media id "MID1", the second an accepted message send. -/
def oFileHappy : Oracle :=
  { token := fun _ => TokenExchange.ok freshResp,
    attempt := fun k => match k with
      | 0 => AttemptOutcome.resp
          (Json.obj [("errcode", Json.num 0), ("media_id", Json.str "MID1")])
      | _ + 1 => AttemptOutcome.resp okBody }

/-- C1. The claim says getMediaID fails with an EncodingError when the
accepted upload response's media_id field is absent or not a string; the
code instead runs the unchecked type assertion of line 243 and panics: with
the response body lacking media_id, and with media_id a number, the
operation crashes rather than returning an error. -/
theorem c1_media_id_assertion_panics :
    (getMediaID oNoMedia 1 wReady [] Filetype.file "a.txt" 0 0).1 =
      GoResult.panic "interface conversion" ∧
    (getMediaID oBadMedia 1 wReady [] Filetype.file "a.txt" 0 0).1 =
      GoResult.panic "interface conversion" :=
  ⟨rfl, rfl⟩

/-- C2 counterexample. The claim says the returned error carries both the
provider's error code and its message; but line 138 builds the error from
the message alone, so responses with the distinct codes 40001 and 40002 and
the same message "boom" produce identical errors — the code is not carried. -/
theorem c2_counterexample_error_lacks_code :
    (send demoBuild oProv1 1 wReady 0 0).res = Except.error (GoError.errMsg "boom") ∧
    (send demoBuild oProv2 1 wReady 0 0).res = (send demoBuild oProv1 1 wReady 0 0).res :=
  ⟨rfl, rfl⟩

/-- C2 amended. For every dispatched request whose parsed response carries an
errcode that is non-zero and not one of 42001/40014/41001, send returns the
error built from the provider's message alone (the code is not included),
and performs no retry and no refresh: the whole run is the single dispatch,
with state and stored credential untouched. -/
theorem c2_provider_error_message_only (build : String → Request) (o : Oracle)
    (fuel : Nat) (w : WecomState) (tk ak : Nat) (body : Json) (c : Int) (m : String)
    (hTok : w.accessToken ≠ "")
    (hA : o.attempt ak = AttemptOutcome.resp body)
    (hD : unmarshalErrResp body = Except.ok (c, m))
    (hNZ : c ≠ 0)
    (hNC : ¬(c = 42001 ∨ c = 40014 ∨ c = 41001)) :
    send build o (fuel+1) w tk ak =
      ⟨Except.error (GoError.errMsg m), w,
       [Event.dispatch (build w.accessToken) (AttemptOutcome.resp body)], tk, ak+1⟩ := by
  simp [send, sendCore, hTok, hA, hD, hNZ, hNC]

/-- C2 witness: the amended theorem evaluated on the 40001/"boom" provider
error. -/
theorem c2_provider_error_message_only_witness :
    send demoBuild oProv1 1 wReady 0 0 =
      ⟨Except.error (GoError.errMsg "boom"), wReady,
       [Event.dispatch (demoBuild "tok")
          (AttemptOutcome.resp
            (Json.obj [("errcode", Json.num 40001), ("errmsg", Json.str "boom")]))],
       0, 1⟩ :=
  c2_provider_error_message_only demoBuild oProv1 0 wReady 0 0 _ 40001 "boom"
    (by decide) rfl rfl (by decide) (by decide)

/-- C5 counterexample. The claim says the serialized text body fixes the
safety flag "safe" at the numeric value 0; line 160 actually sets it to the
JSON string "0", so the serialized field is the string "0" and not the
number 0. -/
theorem c5_counterexample_safe_is_string :
    jlookup (textFields demoText) "safe" = some (Json.str "0") ∧
    jlookup (textFields demoText) "safe" ≠ some (Json.num 0) := by
  refine ⟨rfl, fun h => ?_⟩
  rw [show jlookup (textFields demoText) "safe" = some (Json.str "0") from rfl] at h
  exact Json.noConfusion (Option.some.inj h)

/-- C5 amended. For every text send, the serialized JSON body contains
exactly the documented fields and nesting — touser, agentid, msgtype "text",
a text object holding the content — with the safety flag "safe" fixed at the
JSON string "0" (not the number 0). -/
theorem c5_text_body_shape (t : TextInfo) :
    jlookup (textFields t) "touser" = some (Json.str t.touser) ∧
    jlookup (textFields t) "agentid" = some (Json.num t.agentID) ∧
    jlookup (textFields t) "msgtype" = some (Json.str "text") ∧
    jlookup (textFields t) "text" = some (Json.obj [("content", Json.str t.content)]) ∧
    jlookup (textFields t) "safe" = some (Json.str "0") ∧
    (textFields t).length = 5 ∧
    textBody t = Json.obj (textFields t) :=
  ⟨rfl, rfl, rfl, rfl, rfl, rfl, rfl⟩

/-- C9 counterexample. The claim says every write of the first-occurrence
flag happens while the push lock is held; in the not-first branch the code
releases the lock on line 129 and only then writes the flag on line 130, so
on a credential-error response with the flag clear some flag access happens
outside the lock. -/
theorem c9_counterexample_write_outside_lock :
    flagAccessesUnderLock false (pushSection false 42001) = false := by decide

/-- C9 amended. In the response-handling region of send, every read of the
first-occurrence flag (the refresh-vs-retry decision) happens while the push
lock is held, and the lock is released before every recursive re-dispatch;
flag writes are under the lock in the first-occurrence branch, but in the
not-first branch the flag is reset to first only after the lock is released,
so all flag accesses are under the lock exactly when the response is not a
credential error. -/
theorem c9_lock_discipline (c : Int) :
    readsUnderLock false (pushSection true c) = true ∧
    readsUnderLock false (pushSection false c) = true ∧
    redispatchAfterUnlock false (pushSection true c) = true ∧
    redispatchAfterUnlock false (pushSection false c) = true ∧
    flagAccessesUnderLock false (pushSection true c) = true ∧
    flagAccessesUnderLock false (pushSection false c) = !credErrCode c := by
  by_cases h0 : c = 0
  · subst h0; decide
  · by_cases hc : c = 42001 ∨ c = 40014 ∨ c = 41001
    · simp [pushSection, h0, hc, credErrCode, readsUnderLock,
        redispatchAfterUnlock, flagAccessesUnderLock]
    · simp [pushSection, h0, hc, credErrCode, readsUnderLock,
        redispatchAfterUnlock, flagAccessesUnderLock]

/-- C10. For every token-endpoint exchange, getAccessToken leaves the stored
credential (indeed the whole state) unchanged unless the exchange decodes
with errcode 0, in which case — and only then — the token is overwritten
with the fetched one; equivalently, whenever the state changed at all the
call returned success. -/
theorem c10_token_overwritten_only_on_success (w : WecomState) (x : TokenExchange) :
    (getAccessToken w x).2 =
      (match x with
       | TokenExchange.ok a =>
           if a.errcode ≠ 0 then w else { w with accessToken := a.access_token }
       | _ => w) ∧
    ((getAccessToken w x).1 = Except.ok () ∨ (getAccessToken w x).2 = w) := by
  cases x with
  | reqErr e => exact ⟨rfl, Or.inr rfl⟩
  | doErr e => exact ⟨rfl, Or.inr rfl⟩
  | readErr e => exact ⟨rfl, Or.inr rfl⟩
  | decodeErr e => exact ⟨rfl, Or.inr rfl⟩
  | ok a =>
    by_cases h : a.errcode ≠ 0
    · simp [getAccessToken, h]
    · simp [getAccessToken, h]

/-- C7. For every dispatched request whose parsed response carries errcode 0,
send returns the raw response bytes unchanged, the run consists of that
single dispatch (no refresh, no additional provider calls), and the state —
first-occurrence flag and stored credential included — is left exactly as it
was. -/
theorem c7_success_returns_bytes_unchanged (build : String → Request) (o : Oracle)
    (fuel : Nat) (w : WecomState) (tk ak : Nat) (body : Json) (m : String)
    (hTok : w.accessToken ≠ "")
    (hA : o.attempt ak = AttemptOutcome.resp body)
    (hD : unmarshalErrResp body = Except.ok (0, m)) :
    send build o (fuel+1) w tk ak =
      ⟨Except.ok body, w,
       [Event.dispatch (build w.accessToken) (AttemptOutcome.resp body)], tk, ak+1⟩ := by
  simp [send, sendCore, hTok, hA, hD]

/-- C7 witness: the theorem evaluated on an errcode-0 response. -/
theorem c7_success_returns_bytes_unchanged_witness :
    send demoBuild oAllOk 1 wReady 0 0 =
      ⟨Except.ok okBody, wReady,
       [Event.dispatch (demoBuild "tok") (AttemptOutcome.resp okBody)], 0, 1⟩ :=
  c7_success_returns_bytes_unchanged demoBuild oAllOk 0 wReady 0 0 okBody "ok"
    (by decide) rfl rfl

/-- C3. Given a first response carrying 42001, 40014 or 41001 while the
first-occurrence flag is set, send fetches a new credential exactly once and
re-dispatches the same request builder, the resubmitted outbound request
being built with the newly fetched credential; the re-dispatch performs no
further fetch since a credential is present, so (the second response
succeeding) the whole run is dispatch, one token fetch, dispatch-with-new-
token. -/
theorem c3_first_cred_error_refreshes_once (build : String → Request) (o : Oracle)
    (fuel : Nat) (w : WecomState) (tk ak : Nat) (body1 body2 : Json)
    (c : Int) (m1 m2 : String) (a : AccessResp)
    (hTok : w.accessToken ≠ "")
    (hFlag : w.isFirstAccessTokenErr = true)
    (hA1 : o.attempt ak = AttemptOutcome.resp body1)
    (hD1 : unmarshalErrResp body1 = Except.ok (c, m1))
    (hC : c = 42001 ∨ c = 40014 ∨ c = 41001)
    (hT : o.token tk = TokenExchange.ok a)
    (hA0 : a.errcode = 0)
    (hNew : a.access_token ≠ "")
    (hA2 : o.attempt (ak+1) = AttemptOutcome.resp body2)
    (hD2 : unmarshalErrResp body2 = Except.ok (0, m2)) :
    send build o (fuel+2) w tk ak =
      ⟨Except.ok body2,
       { w with accessToken := a.access_token, isFirstAccessTokenErr := false },
       [Event.dispatch (build w.accessToken) (AttemptOutcome.resp body1),
        Event.tokenFetch,
        Event.dispatch (build a.access_token) (AttemptOutcome.resp body2)],
       tk+1, ak+2⟩ := by
  have hc0 : ¬(c = 0) := by rcases hC with h | h | h <;> omega
  simp [send, sendCore, hTok, hFlag, hA1, hD1, hc0, hC, hT, getAccessToken,
    hA0, hNew, hA2, hD2]

/-- C3 witness: the theorem evaluated on a 42001 first response followed by a
success, the refresh yielding the token "fresh". -/
theorem c3_first_cred_error_refreshes_once_witness :
    send demoBuild oRefresh 2 wReady 0 0 =
      ⟨Except.ok okBody,
       { wReady with accessToken := "fresh", isFirstAccessTokenErr := false },
       [Event.dispatch (demoBuild "tok") (AttemptOutcome.resp credBody42001),
        Event.tokenFetch,
        Event.dispatch (demoBuild "fresh") (AttemptOutcome.resp okBody)],
       1, 2⟩ :=
  c3_first_cred_error_refreshes_once demoBuild oRefresh 0 wReady 0 0
    credBody42001 okBody 42001 "expired" "ok" freshResp
    (by decide) rfl rfl rfl (Or.inl rfl) rfl rfl (by decide) rfl rfl

/-- Helper for C8: in the file-message body, the key named after the media
classification maps to the object holding the uploaded media id together
with the title and description. -/
theorem fileFields_classification_lookup (f : FileInfo) (mid : String) :
    jlookup (fileFields f mid) f.filetype.toString =
      some (Json.obj [("media_id", Json.str mid), ("title", Json.str f.title),
                      ("description", Json.str f.description)]) := by
  obtain ⟨tu, ag, co, ft, fn, ti, de⟩ := f
  cases ft <;> rfl

/-- C8. For every file send on the happy path — token already present, both
responses accepted with errcode 0, and the upload response carrying a string
media_id — exactly two provider calls are issued, one media upload followed
by one message send, and the send payload maps the key named after the media
classification to the object whose media_id equals the identifier the upload
returned, alongside the title and description. -/
theorem c8_file_two_calls_happy_path (o : Oracle) (fuel : Nat) (w : WecomState)
    (f : FileInfo) (ufs : List (String × Json)) (mid : String) (body2 : Json)
    (m1 m2 : String)
    (hTok : w.accessToken ≠ "")
    (hU : o.attempt 0 = AttemptOutcome.resp (Json.obj ufs))
    (hDu : unmarshalErrResp (Json.obj ufs) = Except.ok (0, m1))
    (hMid : jlookup ufs "media_id" = some (Json.str mid))
    (hA2 : o.attempt 1 = AttemptOutcome.resp body2)
    (hD2 : unmarshalErrResp body2 = Except.ok (0, m2)) :
    File o (fuel+1) w f =
      (GoResult.ok (), w,
       [Event.dispatch (uploadRequest f.content f.filetype f.filename w.accessToken)
          (AttemptOutcome.resp (Json.obj ufs)),
        Event.dispatch (sendRequest (fileBody f mid) w.accessToken)
          (AttemptOutcome.resp body2)]) ∧
    jlookup (fileFields f mid) f.filetype.toString =
      some (Json.obj [("media_id", Json.str mid), ("title", Json.str f.title),
                      ("description", Json.str f.description)]) := by
  refine ⟨?_, fileFields_classification_lookup f mid⟩
  simp [File, getMediaID, send, sendCore, hTok, hU, hDu, hMid, hA2, hD2,
    unmarshalMapAny]

/-- C8 witness: the theorem evaluated on the concrete happy-path file send. -/
theorem c8_file_two_calls_happy_path_witness :
    File oFileHappy 1 wReady demoFile =
      (GoResult.ok (), wReady,
       [Event.dispatch
          (uploadRequest demoFile.content demoFile.filetype demoFile.filename "tok")
          (AttemptOutcome.resp
            (Json.obj [("errcode", Json.num 0), ("media_id", Json.str "MID1")])),
        Event.dispatch (sendRequest (fileBody demoFile "MID1") "tok")
          (AttemptOutcome.resp okBody)]) ∧
    jlookup (fileFields demoFile "MID1") demoFile.filetype.toString =
      some (Json.obj [("media_id", Json.str "MID1"), ("title", Json.str demoFile.title),
                      ("description", Json.str demoFile.description)]) :=
  c8_file_two_calls_happy_path oFileHappy 0 wReady demoFile
    [("errcode", Json.num 0), ("media_id", Json.str "MID1")] "MID1" okBody "" "ok"
    (by decide) rfl rfl rfl rfl rfl

/-- Helper: a trace opening with a credential-error dispatch satisfies the
no-fetch-before-credential-error discipline outright. -/
theorem noFetch_cons_credErr (e : Event) (rest : List Event)
    (h : isCredErrEvent e = true) :
    noFetchBeforeCredErr (e :: rest) = true := by
  cases e with
  | tokenFetch => simp [isCredErrEvent] at h
  | dispatch req outcome => simp [noFetchBeforeCredErr, h]

/-- Helper: whatever the environment and however the recovery continues, the
trace of the response-handling region never contacts the token endpoint
before a credential-error response has been observed. -/
theorem sendCore_trace_noFetch (build : String → Request) (o : Oracle)
    (recur : WecomState → Nat → Nat → SendResult) (w : WecomState) (tk ak : Nat) :
    noFetchBeforeCredErr ((sendCore build o recur w tk ak).trace) = true := by
  cases hAk : o.attempt ak with
  | getRespErr e =>
      simp [sendCore, hAk, noFetchBeforeCredErr, isCredErrEvent, credErrOutcome]
  | resp body =>
    cases hU : unmarshalErrResp body with
    | error e =>
        simp [sendCore, hAk, hU, noFetchBeforeCredErr, isCredErrEvent, credErrOutcome]
    | ok p =>
      obtain ⟨c, m⟩ := p
      by_cases h0 : c = 0
      · subst h0
        simp [sendCore, hAk, hU, noFetchBeforeCredErr, isCredErrEvent,
          credErrOutcome, credErrCode]
      · by_cases hc : c = 42001 ∨ c = 40014 ∨ c = 41001
        · have hev : isCredErrEvent
              (Event.dispatch (build w.accessToken) (AttemptOutcome.resp body)) = true := by
            simp [isCredErrEvent, credErrOutcome, hU, credErrCode, hc]
          cases hf : w.isFirstAccessTokenErr with
          | false =>
              simp [sendCore, hAk, hU, h0, hc, hf, noFetchBeforeCredErr, hev]
          | true =>
              rcases hg : getAccessToken { w with isFirstAccessTokenErr := false }
                  (o.token tk) with ⟨r, w3⟩
              cases r with
              | error e =>
                  simp [sendCore, hAk, hU, h0, hc, hf, hg, noFetchBeforeCredErr, hev]
              | ok u =>
                  simp [sendCore, hAk, hU, h0, hc, hf, hg, noFetchBeforeCredErr, hev]
        · simp [sendCore, hAk, hU, h0, hc, noFetchBeforeCredErr, isCredErrEvent,
            credErrOutcome, credErrCode]

/-- C6. For every environment, fuel, state and oracle position, the trace of
send obeys the lazy-fetch discipline: a token fetch opens the run exactly
when the stored credential is empty, at most once, and beyond that the token
endpoint is contacted only after a credential-error response code has been
observed. -/
theorem c6_lazy_fetch (build : String → Request) (o : Oracle) (fuel : Nat)
    (w : WecomState) (tk ak : Nat) :
    lazyFetchOk (decide (w.accessToken = "")) ((send build o fuel w tk ak).trace) = true := by
  cases fuel with
  | zero =>
      by_cases hw : w.accessToken = "" <;>
        simp [send, lazyFetchOk, hw, noFetchBeforeCredErr]
  | succ fuel =>
      by_cases hw : w.accessToken = ""
      · rcases hg : getAccessToken w (o.token tk) with ⟨r, w1⟩
        cases r with
        | error e => simp [send, hw, hg, lazyFetchOk, noFetchBeforeCredErr]
        | ok u =>
            have hd : (decide (w.accessToken = "")) = true := by simp [hw]
            rw [hd]
            have ht : (send build o (fuel+1) w tk ak).trace =
                Event.tokenFetch ::
                  (sendCore build o
                    (fun w2 tk2 ak2 => send build o fuel w2 tk2 ak2) w1 (tk+1) ak).trace := by
              simp [send, hw, hg]
            rw [ht]
            simp only [lazyFetchOk]
            exact sendCore_trace_noFetch build o _ w1 (tk+1) ak
      · have hd : (decide (w.accessToken = "")) = false := by simp [hw]
        rw [hd]
        have ht : (send build o (fuel+1) w tk ak) =
            sendCore build o (fun w2 tk2 ak2 => send build o fuel w2 tk2 ak2) w tk ak := by
          simp [send, hw]
        rw [ht]
        simp only [lazyFetchOk, Bool.false_eq_true, if_false]
        exact sendCore_trace_noFetch build o _ w tk ak

/-- Helper: flipping the first-occurrence flag once per attempt means the
flag after one more attempt matches the parity formula. -/
theorem flag_parity_flip (b : Bool) (fuel : Nat) :
    (!b == decide (fuel % 2 = 0)) = (b == decide ((fuel+1) % 2 = 0)) := by
  rcases Nat.mod_two_eq_zero_or_one fuel with h | h
  · have h1 : (fuel+1) % 2 = 1 := by omega
    simp [h, h1]
  · have h1 : (fuel+1) % 2 = 0 := by omega
    simp [h, h1]

/-- C4. For every environment answering each dispatch with a credential-error
code (and each token exchange with a fresh non-empty token), send alternates:
an attempt with the first-occurrence flag set is a dispatch followed by
exactly one refreshing token fetch, an attempt with it clear is a bare
re-dispatch with no refresh, the shared flag flipping every attempt — so the
trace is the alternating pattern, never a refresh per attempt, and the final
flag value is the parity of the attempt count. -/
theorem c4_alternating_refresh (build : String → Request) (o : Oracle)
    (hA : ∀ k, credErrOutcome (o.attempt k) = true)
    (hT : ∀ k, tokenOk (o.token k) = true) :
    ∀ (fuel : Nat) (w : WecomState) (tk ak : Nat), w.accessToken ≠ "" →
      (send build o fuel w tk ak).trace =
        altPattern build o fuel w.isFirstAccessTokenErr w.accessToken tk ak ∧
      (send build o fuel w tk ak).res = Except.error GoError.fuelOut ∧
      (send build o fuel w tk ak).state.isFirstAccessTokenErr =
        (w.isFirstAccessTokenErr == decide (fuel % 2 = 0)) := by
  intro fuel
  induction fuel with
  | zero =>
      intro w tk ak hw
      refine ⟨rfl, rfl, ?_⟩
      simp [send]
  | succ fuel ih =>
      intro w tk ak hw
      have hco := hA ak
      cases hAk : o.attempt ak with
      | getRespErr e => rw [hAk] at hco; simp [credErrOutcome] at hco
      | resp body =>
        rw [hAk] at hco
        cases hU : unmarshalErrResp body with
        | error e =>
            simp only [credErrOutcome, hU] at hco
            exact Bool.noConfusion hco
        | ok p =>
          obtain ⟨c, m⟩ := p
          simp only [credErrOutcome, hU, credErrCode, decide_eq_true_eq] at hco
          have hc0 : ¬(c = 0) := by rcases hco with h | h | h <;> omega
          have hto := hT tk
          cases hTk : o.token tk with
          | reqErr e => rw [hTk] at hto; simp [tokenOk] at hto
          | doErr e => rw [hTk] at hto; simp [tokenOk] at hto
          | readErr e => rw [hTk] at hto; simp [tokenOk] at hto
          | decodeErr e => rw [hTk] at hto; simp [tokenOk] at hto
          | ok a =>
            rw [hTk] at hto
            simp only [tokenOk, decide_eq_true_eq] at hto
            obtain ⟨ha0, hane⟩ := hto
            cases hf : w.isFirstAccessTokenErr with
            | true =>
                have ihx := ih { w with accessToken := a.access_token, isFirstAccessTokenErr := false } (tk+1) (ak+1) (by simpa using hane)
                obtain ⟨iht, ihr, ihf⟩ := ihx
                refine ⟨?_, ?_, ?_⟩
                · simp [send, sendCore, hw, hAk, hU, hc0, hco, hf, hTk,
                    getAccessToken, ha0, altPattern, fetchedToken, iht]
                · simp [send, sendCore, hw, hAk, hU, hc0, hco, hf, hTk,
                    getAccessToken, ha0, ihr]
                · simp only [send, sendCore]
                  simp [hw, hAk, hU, hc0, hco, hf, hTk, getAccessToken, ha0, ihf]
                  simpa using flag_parity_flip true fuel
            | false =>
                obtain ⟨iht, ihr, ihf⟩ :=
                  ih { w with isFirstAccessTokenErr := true } tk (ak+1) (by simpa using hw)
                refine ⟨?_, ?_, ?_⟩
                · simp [send, sendCore, hw, hAk, hU, hc0, hco, hf, altPattern, iht]
                · simp [send, sendCore, hw, hAk, hU, hc0, hco, hf, ihr]
                · simp [send, sendCore, hw, hAk, hU, hc0, hco, hf, ihf]
                  simpa using flag_parity_flip false fuel

/-- C4 witness: three consecutive credential-error attempts from a ready
state produce exactly the alternating trace with the parity flag. -/
theorem c4_alternating_refresh_witness :
    (send demoBuild oCredLoop 3 wReady 0 0).trace =
      altPattern demoBuild oCredLoop 3 wReady.isFirstAccessTokenErr wReady.accessToken 0 0 ∧
    (send demoBuild oCredLoop 3 wReady 0 0).res = Except.error GoError.fuelOut ∧
    (send demoBuild oCredLoop 3 wReady 0 0).state.isFirstAccessTokenErr =
      (wReady.isFirstAccessTokenErr == decide (3 % 2 = 0)) :=
  c4_alternating_refresh demoBuild oCredLoop (fun _ => rfl) (fun _ => rfl) 3 wReady 0 0
    (by decide)

end Wecom
